import Mathlib

/-!
Shallow embedding of the signing-state + broadcast pipeline of the ampd
command-line surface (src/ampd/src/cli.rs and src/ampd/src/main.rs).

Network effects (signer connection, keygen, account queries, broadcast
submission) are modelled by an explicit environment of oracles; every run
returns an outcome, the final in-memory persisted state, and the ordered
trace of RPC events it issued.  Rust `unwrap`/`expect` panics are modelled
as `Outcome.panicked` with the reason observed at the panic site.
-/

namespace Ampd

/-- Compressed public-key bytes, `crate::types::PublicKey`. -/
structure PublicKey where
  bytes : List Nat
deriving DecidableEq

/-- The on-disk record managed by `crate::state::StateUpdater`:
`\x7b pub_key: Option<PublicKey> \x7d`. -/
structure PersistedState where
  pub_key : Option PublicKey
deriving DecidableEq

/-- Account bookkeeping returned by the chain query
(`broadcaster::accounts::account`). -/
structure AccountInfo where
  account_number : Nat
  sequence : Nat
deriving DecidableEq

/-- A `cosmrs::Coin`: amount plus denomination. -/
structure Coin where
  amount : Nat
  denom : String
deriving DecidableEq

/-- The variants of `crate::report::Error` that the two source files
construct (`change_context` targets in cli.rs). -/
inductive Error where
  | Connection
  | StateUpdater
  | Tofnd
  | Broadcaster
deriving DecidableEq

/-- Chain-query failure modes named by the spec for the account fetch. -/
inductive QueryErr where
  | notFound
  | transport
deriving DecidableEq

/-- Immediate response of the broadcast RPC. -/
inductive SubmitResult where
  | confirmed
  | sequenceMismatch
  | otherRejected
deriving DecidableEq

/-- One observable RPC issued by a run, in order. -/
inductive RpcEvent where
  | connectSigner
  | keygen (key_uid : String)
  | connectQuery
  | queryAccount (addr : String)
  | connectService
  | broadcastCall
  | sign (key_uid : String)
  | submit (sequence : Nat)
deriving DecidableEq

/-- An entry of `Config.handlers` as matched in `register_public_key`. -/
inductive HandlerConfig where
  | MultisigSigner (cosmwasm_contract : String)
  | Other
deriving DecidableEq

/-- Modelled from the spec: `broadcaster::Config` is not under src/; the
spec requires a bounded sequence-mismatch re-resolution retry, so the
configuration carries the retry bound. -/
structure BroadcastConfig where
  retries : Nat
deriving DecidableEq

/-- The tofnd section of `crate::config::Config` used by cli.rs. -/
structure TofndConfig where
  party_uid : String
  key_uid : String
deriving DecidableEq

/-- The fields of `crate::config::Config` that cli.rs destructures
(tm_grpc is a transport detail folded into the environment oracles). -/
structure Config where
  broadcast : BroadcastConfig
  tofnd_config : TofndConfig
  handlers : List HandlerConfig

/-- Environment of external oracles: argument parsers from external
crates (cosmrs), transport outcomes, the state file contents
(`StateUpdater::new` is repo code not under src/, modelled as a load
oracle), the signer keygen oracle, the per-call account fetch oracle and
the per-attempt submit oracle.  `time` and `randomness` are never read by
any embedded function; they witness the absence of clock/randomness
dependence. -/
structure Env where
  parse_account_id : String → Option String
  coin_ok : String → Bool
  signer_connect_ok : Bool
  query_connect_ok : Bool
  service_connect_ok : Bool
  load_state : Except Unit PersistedState
  keygen : String → Except Unit PublicKey
  fetch_account : String → Nat → Except QueryErr AccountInfo
  submit : Nat → SubmitResult
  time : Nat
  randomness : Nat

/-- Why a run aborted: an `unwrap` on an `error_stack` report, an
argument-parse `unwrap` in main.rs, the `expect` on a missing multisig
handler, or a bare `unwrap` on the extra keygen in `register_public_key`. -/
inductive PanicReason where
  | errorReport (e : Error)
  | parseFailure
  | noMultisigHandler
  | unwrapFailure
deriving DecidableEq

/-- Final outcome of a command run. -/
inductive Outcome where
  | success
  | panicked (p : PanicReason)
deriving DecidableEq

/-- Result of one command run: outcome, the store state at the end
(`none` when the state file was never opened or failed to load), and the
trace of RPC events. -/
structure RunResult where
  outcome : Outcome
  final_state : Option PersistedState
  events : List RpcEvent
deriving DecidableEq

/-- The `service_registry::msg::ExecuteMsg` variants built in cli.rs. -/
inductive ExecuteMsg where
  | BondWorker (service_name : String)
  | DeclareChainSupport (service_name : String) (chains : List String)
deriving DecidableEq

/-- The `multisig::msg::ExecuteMsg` variant built in `register_public_key`. -/
inductive MultisigExecuteMsg where
  | RegisterPublicKey (public_key : PublicKey)
deriving DecidableEq

def joinStrings : List String → String
  | [] => ""
  | [s] => "\"" ++ s ++ "\""
  | s :: rest => "\"" ++ s ++ "\"," ++ joinStrings rest

/-- Deterministic JSON serialization of a service-registry message,
modelling `serde_json::to_vec` (snake_case variant tags). -/
def serde_json_to_vec : ExecuteMsg → String
  | ExecuteMsg.BondWorker sn =>
      "\x7b\"bond_worker\":\x7b\"service_name\":\"" ++ sn ++ "\"\x7d\x7d"
  | ExecuteMsg.DeclareChainSupport sn cs =>
      "\x7b\"declare_chain_support\":\x7b\"service_name\":\"" ++ sn
        ++ "\",\"chains\":[" ++ joinStrings cs ++ "]\x7d\x7d"

/-- Deterministic JSON serialization of the multisig register message. -/
def serde_json_to_vec_multisig : MultisigExecuteMsg → String
  | MultisigExecuteMsg.RegisterPublicKey pk =>
      "\x7b\"register_public_key\":\x7b\"public_key\":\""
        ++ String.intercalate ("-") (pk.bytes.map Nat.repr) ++ "\"\x7d\x7d"

/-- Derivation of the bech32 account address from a public key and a
human-readable part, modelling `PublicKey::account_id`; deterministic in
its inputs. -/
def account_id (pk : PublicKey) (hrp : String) : String :=
  hrp ++ "1" ++ String.intercalate ("-") (pk.bytes.map Nat.repr)

/-- The constant address prefix of cli.rs. -/
def PREFIX : String := "axelar"

/-- A `cosmrs::cosmwasm::MsgExecuteContract`: sender, contract, serialized
message bytes, attached funds. -/
structure MsgExecuteContract where
  sender : String
  contract : String
  msg : String
  funds : List Coin
deriving DecidableEq

/-- Key resolution, embedding `pub_key` (cli.rs:254-273): open the state
(load oracle; failure is `Error::StateUpdater`); return the cached key
when present with no RPC; otherwise issue one keygen RPC (failure is
`Error::Tofnd`), store the returned key in the state, and return it.
Returns the result, the state after the call (`none` when loading
failed), and the RPC trace. -/
def pub_key (env : Env) (key_uid : String) :
    Except Error PublicKey × Option PersistedState × List RpcEvent :=
  match env.load_state with
  | Except.error _ => (Except.error Error.StateUpdater, none, [])
  | Except.ok s =>
    match s.pub_key with
    | some k => (Except.ok k, some s, [])
    | none =>
      match env.keygen key_uid with
      | Except.error _ =>
          (Except.error Error.Tofnd, some s, [RpcEvent.keygen key_uid])
      | Except.ok k =>
          (Except.ok k, some { pub_key := some k }, [RpcEvent.keygen key_uid])

/-- Modelled from the spec: `crate::broadcaster`'s `broadcast` is not
under src/.  Per §4.5/§8 of the spec, each attempt signs and submits; a
`sequenceMismatch` rejection re-fetches `AccountInfo` and resubmits with
the fresh sequence, bounded by the retry budget; any other rejection is
terminal.  `attempt` indexes the submit oracle, `fetchIdx` the account
fetch oracle. -/
def broadcaster_broadcast (env : Env) (key_uid : String) (addr : String)
    (acc : AccountInfo) (fuel attempt fetchIdx : Nat) :
    Except Error Unit × List RpcEvent :=
  match fuel with
  | 0 => (Except.error Error.Broadcaster, [])
  | f + 1 =>
    let evs := [RpcEvent.sign key_uid, RpcEvent.submit acc.sequence]
    match env.submit attempt with
    | SubmitResult.confirmed => (Except.ok (), evs)
    | SubmitResult.otherRejected => (Except.error Error.Broadcaster, evs)
    | SubmitResult.sequenceMismatch =>
      match env.fetch_account addr fetchIdx with
      | Except.error _ =>
          (Except.error Error.Broadcaster, evs ++ [RpcEvent.queryAccount addr])
      | Except.ok acc2 =>
          let r := broadcaster_broadcast env key_uid addr acc2 f (attempt + 1) (fetchIdx + 1)
          (r.1, evs ++ [RpcEvent.queryAccount addr] ++ r.2)

/-- Embedding of `broadcast_execute_contract` (cli.rs:275-317): connect
the query client (`Error::Connection`), fetch the account for the address
derived from the public key — any failure is wrapped into the generic
`Error::Broadcaster` by `change_context` — connect the service client,
build the broadcaster with the fetched account numbers, and run one
broadcast call. -/
def broadcast_execute_contract (env : Env) (cfg : BroadcastConfig)
    (key_uid : String) (tx : MsgExecuteContract) (pk : PublicKey) :
    Except Error Unit × List RpcEvent :=
  if env.query_connect_ok then
    let worker := account_id pk PREFIX
    match env.fetch_account worker 0 with
    | Except.error _ =>
        (Except.error Error.Broadcaster,
          [RpcEvent.connectQuery, RpcEvent.queryAccount worker])
    | Except.ok acc =>
      if env.service_connect_ok then
        let r := broadcaster_broadcast env key_uid worker acc (cfg.retries + 1) 0 1
        (r.1, [RpcEvent.connectQuery, RpcEvent.queryAccount worker,
               RpcEvent.connectService, RpcEvent.broadcastCall] ++ r.2)
      else
        (Except.error Error.Connection,
          [RpcEvent.connectQuery, RpcEvent.queryAccount worker,
           RpcEvent.connectService])
  else (Except.error Error.Connection, [RpcEvent.connectQuery])

/-- Assembly of the bond-worker transaction (cli.rs:77-87): serialize
`ExecuteMsg::BondWorker`, derive the sender from the public key, attach
the contract address and the coin.  Takes the whole environment to make
visible that no oracle, clock or randomness is read. -/
def assemble_bond_worker_tx (env : Env) (pk : PublicKey)
    (service_registry : String) (service_name : String) (coin : Coin) :
    MsgExecuteContract :=
  { sender := account_id pk PREFIX
    contract := service_registry
    msg := serde_json_to_vec (ExecuteMsg.BondWorker service_name)
    funds := [coin] }

/-- Assembly of the declare-chain-support transaction (cli.rs:129-142);
no funds are attached. -/
def assemble_declare_chain_support_tx (env : Env) (pk : PublicKey)
    (service_registry : String) (service_name : String)
    (chains : List String) : MsgExecuteContract :=
  { sender := account_id pk PREFIX
    contract := service_registry
    msg := serde_json_to_vec (ExecuteMsg.DeclareChainSupport service_name chains)
    funds := [] }

/-- The final `broadcaster.broadcast(..).unwrap()` step shared by the
three broadcast commands (cli.rs:89-97, 144-152, 213-221): a broadcast
error panics with its report, success ends the run; the broadcast events
extend the trace and the store state is untouched. -/
def run_of (st : Option PersistedState) (pre : List RpcEvent)
    (r : Except Error Unit × List RpcEvent) : RunResult :=
  { outcome := match r.1 with
               | Except.error e => Outcome.panicked (PanicReason.errorReport e)
               | Except.ok _ => Outcome.success
    final_state := st
    events := pre ++ r.2 }

/-- Embedding of `cli::bond_worker` (cli.rs:48-98): connect the signer,
resolve the key (`unwrap`), assemble the transaction, broadcast
(`unwrap`). -/
def cli_bond_worker (env : Env) (config : Config) (service_registry : String)
    (service_name : String) (coin : Coin) : RunResult :=
  if env.signer_connect_ok then
    match pub_key env config.tofnd_config.key_uid with
    | (Except.error e, st, evs) =>
        ⟨Outcome.panicked (PanicReason.errorReport e), st,
          RpcEvent.connectSigner :: evs⟩
    | (Except.ok pk, st, evs) =>
        run_of st (RpcEvent.connectSigner :: evs)
          (broadcast_execute_contract env config.broadcast
            config.tofnd_config.key_uid
            (assemble_bond_worker_tx env pk service_registry service_name coin)
            pk)
  else
    ⟨Outcome.panicked (PanicReason.errorReport Error.Connection), none,
      [RpcEvent.connectSigner]⟩

/-- Embedding of `cli::declare_chain_support` (cli.rs:100-153). -/
def cli_declare_chain_support (env : Env) (config : Config)
    (service_registry : String) (service_name : String)
    (chains : List String) : RunResult :=
  if env.signer_connect_ok then
    match pub_key env config.tofnd_config.key_uid with
    | (Except.error e, st, evs) =>
        ⟨Outcome.panicked (PanicReason.errorReport e), st,
          RpcEvent.connectSigner :: evs⟩
    | (Except.ok pk, st, evs) =>
        run_of st (RpcEvent.connectSigner :: evs)
          (broadcast_execute_contract env config.broadcast
            config.tofnd_config.key_uid
            (assemble_declare_chain_support_tx env pk service_registry
              service_name chains)
            pk)
  else
    ⟨Outcome.panicked (PanicReason.errorReport Error.Connection), none,
      [RpcEvent.connectSigner]⟩

/-- The `filter_map`/`next` scan of `register_public_key` (cli.rs:180-190):
first multisig-signer contract address among the configured handlers. -/
def first_multisig : List HandlerConfig → Option String
  | [] => none
  | HandlerConfig.MultisigSigner c :: _ => some c
  | HandlerConfig.Other :: rest => first_multisig rest

/-- Embedding of `cli::register_public_key` (cli.rs:155-222): connect the
signer, resolve the key, find the multisig contract address (`expect`),
issue one more keygen RPC keyed by that address (`unwrap`), parse the
address as the contract (`unwrap`), assemble and broadcast. -/
def cli_register_public_key (env : Env) (config : Config) : RunResult :=
  if env.signer_connect_ok then
    match pub_key env config.tofnd_config.key_uid with
    | (Except.error e, st, evs) =>
        ⟨Outcome.panicked (PanicReason.errorReport e), st,
          RpcEvent.connectSigner :: evs⟩
    | (Except.ok pk, st, evs) =>
      match first_multisig config.handlers with
      | none => ⟨Outcome.panicked PanicReason.noMultisigHandler, st,
                  RpcEvent.connectSigner :: evs⟩
      | some maddr =>
        match env.keygen maddr with
        | Except.error _ =>
            ⟨Outcome.panicked PanicReason.unwrapFailure, st,
              RpcEvent.connectSigner :: (evs ++ [RpcEvent.keygen maddr])⟩
        | Except.ok mpk =>
          match env.parse_account_id maddr with
          | none => ⟨Outcome.panicked PanicReason.parseFailure, st,
                      RpcEvent.connectSigner :: (evs ++ [RpcEvent.keygen maddr])⟩
          | some contract_addr =>
            run_of st
              (RpcEvent.connectSigner :: (evs ++ [RpcEvent.keygen maddr]))
              (broadcast_execute_contract env config.broadcast
                config.tofnd_config.key_uid
                { sender := account_id pk PREFIX
                  contract := contract_addr
                  msg := serde_json_to_vec_multisig
                           (MultisigExecuteMsg.RegisterPublicKey mpk)
                  funds := [] }
                pk)
  else
    ⟨Outcome.panicked (PanicReason.errorReport Error.Connection), none,
      [RpcEvent.connectSigner]⟩

/-- Embedding of `cli::worker_address` (cli.rs:224-252): connect the
signer, resolve the key, print the derived address; no broadcast. -/
def cli_worker_address (env : Env) (config : Config) : RunResult :=
  if env.signer_connect_ok then
    match pub_key env config.tofnd_config.key_uid with
    | (Except.error e, st, evs) =>
        ⟨Outcome.panicked (PanicReason.errorReport e), st,
          RpcEvent.connectSigner :: evs⟩
    | (Except.ok _, st, evs) =>
        ⟨Outcome.success, st, RpcEvent.connectSigner :: evs⟩
  else
    ⟨Outcome.panicked (PanicReason.errorReport Error.Connection), none,
      [RpcEvent.connectSigner]⟩

/-- Embedding of `main::bond_worker` (main.rs:94-111): build the coin
(`Coin::new(..).unwrap()`), parse the service-registry address
(`parse::<AccountId>().unwrap()`), then run `cli::bond_worker`.  Both
parses happen before any RPC; failure is a panic, not a structured
error. -/
def main_bond_worker (env : Env) (config : Config) (service_registry : String)
    (service_name : String) (amount : Nat) (denom : String) : RunResult :=
  if env.coin_ok denom then
    match env.parse_account_id service_registry with
    | none => ⟨Outcome.panicked PanicReason.parseFailure, none, []⟩
    | some sr =>
        cli_bond_worker env config sr service_name { amount := amount, denom := denom }
  else ⟨Outcome.panicked PanicReason.parseFailure, none, []⟩

/-- The subcommands of main.rs (`SubCommand`). -/
inductive SubCommand where
  | daemon
  | bondWorker
  | declareChainSupport
  | registerPublicKey
  | workerAddress
deriving DecidableEq

/-- Embedding of `expand_home_dir` (main.rs:206-212) on paths as component
lists: when the first component is `~` and a home directory is known, the
home components replace it; otherwise the path is returned unchanged. -/
def expand_home_dir (home : Option (List String)) :
    List String → List String
  | "~" :: rest =>
      match home with
      | some h => h ++ rest
      | none => "~" :: rest
  | p => p

/-- The state path each subcommand hands to its cli function: `run_daemon`
(main.rs:161-166) expands the home directory; every other subcommand
passes `args.state.clone()` through unexpanded (main.rs:94-147). -/
def state_path_used (home : Option (List String)) (cmd : SubCommand)
    (state_path : List String) : List String :=
  match cmd with
  | SubCommand.daemon => expand_home_dir home state_path
  | SubCommand.bondWorker => state_path
  | SubCommand.declareChainSupport => state_path
  | SubCommand.registerPublicKey => state_path
  | SubCommand.workerAddress => state_path

/-- Event classifiers used by the trace-counting theorems. -/
def isKeygen : RpcEvent → Bool
  | RpcEvent.keygen _ => true
  | _ => false

def isSubmit : RpcEvent → Bool
  | RpcEvent.submit _ => true
  | _ => false

def isBroadcastCall : RpcEvent → Bool
  | RpcEvent.broadcastCall => true
  | _ => false

/-- Concrete fixture key, matching the spec's end-to-end scenario key. -/
def pkK : PublicKey := { bytes := [2, 171, 205] }

/-- Fixture account `\x7baccount_number: 7, sequence: 3\x7d`. -/
def accA : AccountInfo := { account_number := 7, sequence := 3 }

/-- Fixture account after one confirmed transaction. -/
def accB : AccountInfo := { account_number := 7, sequence := 4 }

/-- Happy-path environment: all transports up, an empty state file,
deterministic keygen, account 7/3 on first fetch and 7/4 on re-fetch,
every submission confirmed.  The address parser stands in for the
external bech32 parser: it rejects exactly the empty string. -/
def envOk : Env :=
  { parse_account_id := fun s => if s = "" then none else some s
    coin_ok := fun _ => true
    signer_connect_ok := true
    query_connect_ok := true
    service_connect_ok := true
    load_state := Except.ok { pub_key := none }
    keygen := fun _ => Except.ok pkK
    fetch_account := fun _ n => Except.ok (if n = 0 then accA else accB)
    submit := fun _ => SubmitResult.confirmed
    time := 0
    randomness := 0 }

/-- Happy-path environment whose state file already holds the key. -/
def envPop : Env := { envOk with load_state := Except.ok { pub_key := some pkK } }

/-- Environment whose signer fails every keygen request. -/
def envKgFail : Env := { envOk with keygen := fun _ => Except.error () }

/-- Environment whose account query reports an unfunded address. -/
def envNotFound : Env :=
  { envPop with fetch_account := fun _ _ => Except.error QueryErr.notFound }

/-- Environment whose account query fails on transport. -/
def envTransport : Env :=
  { envPop with fetch_account := fun _ _ => Except.error QueryErr.transport }

/-- Environment whose chain rejects the first submission with a sequence
mismatch and confirms every later one. -/
def envMismatch : Env :=
  { envPop with
      submit := fun n =>
        if n = 0 then SubmitResult.sequenceMismatch else SubmitResult.confirmed }

/-- Fixture configuration: one retry, one multisig-signer handler. -/
def cfg0 : Config :=
  { broadcast := { retries := 1 }
    tofnd_config := { party_uid := "party", key_uid := "opkey" }
    handlers := [HandlerConfig.MultisigSigner ("m1")] }

/-- Fixture bond-worker transaction. -/
def tx0 : MsgExecuteContract :=
  assemble_bond_worker_tx envPop pkK ("registry1") ("svc")
    { amount := 100, denom := "uaxl" }

/-- Key resolution on a state whose key is already set: the cached key is
returned, the state is untouched and no RPC is issued. -/
theorem pub_key_populated (env : Env) (uid : String) (k : PublicKey)
    (s : PersistedState) (hload : env.load_state = Except.ok s)
    (hset : s.pub_key = some k) :
    pub_key env uid = (Except.ok k, some s, []) := by
  simp [pub_key, hload, hset]

theorem run_of_events (st : Option PersistedState) (pre : List RpcEvent)
    (r : Except Error Unit × List RpcEvent) :
    (run_of st pre r).events = pre ++ r.2 := rfl

theorem run_of_final_state (st : Option PersistedState) (pre : List RpcEvent)
    (r : Except Error Unit × List RpcEvent) :
    (run_of st pre r).final_state = st := rfl

/-- C1: key resolution is idempotent — on a populated state it returns
the cached key with no keygen RPC; on an empty state it issues exactly
one keygen RPC, stores the returned key and returns it, so a second call
on the populated state yields the same key and no further RPC. -/
theorem c1_key_resolution_idempotent
    (envA envB envC : Env) (uid : String) (k : PublicKey)
    (s : PersistedState)
    (hA : envA.load_state = Except.ok s) (hAset : s.pub_key = some k)
    (hB : envB.load_state = Except.ok { pub_key := none })
    (hBkg : envB.keygen uid = Except.ok k)
    (hC : envC.load_state = Except.ok { pub_key := some k }) :
    pub_key envA uid = (Except.ok k, some s, []) ∧
    pub_key envB uid =
      (Except.ok k, some { pub_key := some k }, [RpcEvent.keygen uid]) ∧
    pub_key envC uid = (Except.ok k, some { pub_key := some k }, []) := by
  refine ⟨?_, ?_, ?_⟩
  · exact pub_key_populated envA uid k s hA hAset
  · simp [pub_key, hB, hBkg]
  · exact pub_key_populated envC uid k { pub_key := some k } hC rfl

theorem c1_key_resolution_idempotent_witness :
    pub_key envPop ("opkey") = (Except.ok pkK, some { pub_key := some pkK }, []) ∧
    pub_key envOk ("opkey") =
      (Except.ok pkK, some { pub_key := some pkK }, [RpcEvent.keygen ("opkey")]) ∧
    pub_key envPop ("opkey") = (Except.ok pkK, some { pub_key := some pkK }, []) :=
  c1_key_resolution_idempotent envPop envOk envPop ("opkey") pkK
    { pub_key := some pkK } rfl rfl rfl rfl rfl

/-- Every path of `cli::bond_worker` leaves the store state either
unopened or exactly as key resolution left it. -/
theorem cli_bond_worker_final_state (env : Env) (config : Config)
    (sr sn : String) (coin : Coin) :
    (cli_bond_worker env config sr sn coin).final_state = none ∨
    (cli_bond_worker env config sr sn coin).final_state =
      (pub_key env config.tofnd_config.key_uid).2.1 := by
  unfold cli_bond_worker
  by_cases hc : env.signer_connect_ok
  · simp only [hc, if_true]
    rcases hpk : pub_key env config.tofnd_config.key_uid with ⟨r, st, evs⟩
    cases r <;> simp [run_of_final_state]
  · simp [hc]

theorem cli_declare_chain_support_final_state (env : Env) (config : Config)
    (sr sn : String) (chains : List String) :
    (cli_declare_chain_support env config sr sn chains).final_state = none ∨
    (cli_declare_chain_support env config sr sn chains).final_state =
      (pub_key env config.tofnd_config.key_uid).2.1 := by
  unfold cli_declare_chain_support
  by_cases hc : env.signer_connect_ok
  · simp only [hc, if_true]
    rcases hpk : pub_key env config.tofnd_config.key_uid with ⟨r, st, evs⟩
    cases r <;> simp [run_of_final_state]
  · simp [hc]

theorem cli_register_public_key_final_state (env : Env) (config : Config) :
    (cli_register_public_key env config).final_state = none ∨
    (cli_register_public_key env config).final_state =
      (pub_key env config.tofnd_config.key_uid).2.1 := by
  unfold cli_register_public_key
  by_cases hc : env.signer_connect_ok
  · simp only [hc, if_true]
    rcases hpk : pub_key env config.tofnd_config.key_uid with ⟨r, st, evs⟩
    cases r <;> dsimp only
    · simp
    · cases first_multisig config.handlers <;> dsimp only
      · simp
      · cases env.keygen _ <;> dsimp only
        · simp
        · cases env.parse_account_id _ <;>
            simp [run_of_final_state]
  · simp [hc]

theorem cli_worker_address_final_state (env : Env) (config : Config) :
    (cli_worker_address env config).final_state = none ∨
    (cli_worker_address env config).final_state =
      (pub_key env config.tofnd_config.key_uid).2.1 := by
  unfold cli_worker_address
  by_cases hc : env.signer_connect_ok
  · simp only [hc, if_true]
    rcases hpk : pub_key env config.tofnd_config.key_uid with ⟨r, st, evs⟩
    cases r <;> simp
  · simp [hc]

/-- C2: never-overwrite invariant — once the persisted `pub_key` is set,
every operation of the command surface leaves it at that same value: the
store state after any of the four commands is either untouched on disk
(never opened) or still carries the original key. -/
theorem c2_never_overwrite (env : Env) (config : Config) (sr sn : String)
    (coin : Coin) (chains : List String) (k : PublicKey)
    (s : PersistedState)
    (hload : env.load_state = Except.ok s) (hset : s.pub_key = some k) :
    (∀ s', (cli_bond_worker env config sr sn coin).final_state = some s' →
      s'.pub_key = some k) ∧
    (∀ s', (cli_declare_chain_support env config sr sn chains).final_state = some s' →
      s'.pub_key = some k) ∧
    (∀ s', (cli_register_public_key env config).final_state = some s' →
      s'.pub_key = some k) ∧
    (∀ s', (cli_worker_address env config).final_state = some s' →
      s'.pub_key = some k) := by
  have hpk := pub_key_populated env config.tofnd_config.key_uid k s hload hset
  have h21 : (pub_key env config.tofnd_config.key_uid).2.1 = some s := by
    rw [hpk]
  refine ⟨?_, ?_, ?_, ?_⟩
  · intro s' h
    rcases cli_bond_worker_final_state env config sr sn coin with h0 | h0 <;>
      rw [h0] at h
    · cases h
    · rw [h21] at h
      cases h
      exact hset
  · intro s' h
    rcases cli_declare_chain_support_final_state env config sr sn chains with h0 | h0 <;>
      rw [h0] at h
    · cases h
    · rw [h21] at h
      cases h
      exact hset
  · intro s' h
    rcases cli_register_public_key_final_state env config with h0 | h0 <;>
      rw [h0] at h
    · cases h
    · rw [h21] at h
      cases h
      exact hset
  · intro s' h
    rcases cli_worker_address_final_state env config with h0 | h0 <;>
      rw [h0] at h
    · cases h
    · rw [h21] at h
      cases h
      exact hset

theorem c2_never_overwrite_witness :
    ({ pub_key := some pkK } : PersistedState).pub_key = some pkK :=
  (c2_never_overwrite envPop cfg0 ("registry1") ("svc")
      { amount := 100, denom := "uaxl" } [("chainA")] pkK
      { pub_key := some pkK } rfl rfl).1
    { pub_key := some pkK } (by decide)

/-- C8: a keygen failure during key resolution aborts the whole
operation with the signer error (`Error::Tofnd`): each broadcast command
panics right after the keygen RPC, with no account query, no signing
request and no broadcast submission in its trace. -/
theorem c8_signer_failure_aborts (env : Env) (config : Config)
    (sr sn : String) (coin : Coin) (chains : List String)
    (hc : env.signer_connect_ok = true)
    (hload : env.load_state = Except.ok { pub_key := none })
    (hkg : env.keygen config.tofnd_config.key_uid = Except.error ()) :
    cli_bond_worker env config sr sn coin =
      ⟨Outcome.panicked (PanicReason.errorReport Error.Tofnd),
        some { pub_key := none },
        [RpcEvent.connectSigner, RpcEvent.keygen config.tofnd_config.key_uid]⟩ ∧
    cli_declare_chain_support env config sr sn chains =
      ⟨Outcome.panicked (PanicReason.errorReport Error.Tofnd),
        some { pub_key := none },
        [RpcEvent.connectSigner, RpcEvent.keygen config.tofnd_config.key_uid]⟩ ∧
    cli_register_public_key env config =
      ⟨Outcome.panicked (PanicReason.errorReport Error.Tofnd),
        some { pub_key := none },
        [RpcEvent.connectSigner, RpcEvent.keygen config.tofnd_config.key_uid]⟩ := by
  have hp : pub_key env config.tofnd_config.key_uid =
      (Except.error Error.Tofnd, some { pub_key := none },
        [RpcEvent.keygen config.tofnd_config.key_uid]) := by
    simp [pub_key, hload, hkg]
  refine ⟨?_, ?_, ?_⟩ <;>
    simp [cli_bond_worker, cli_declare_chain_support, cli_register_public_key,
      hc, hp]

theorem c8_signer_failure_aborts_witness :
    cli_bond_worker envKgFail cfg0 ("registry1") ("svc")
        { amount := 100, denom := "uaxl" } =
      ⟨Outcome.panicked (PanicReason.errorReport Error.Tofnd),
        some { pub_key := none },
        [RpcEvent.connectSigner, RpcEvent.keygen ("opkey")]⟩ ∧
    cli_declare_chain_support envKgFail cfg0 ("registry1") ("svc") [("chainA")] =
      ⟨Outcome.panicked (PanicReason.errorReport Error.Tofnd),
        some { pub_key := none },
        [RpcEvent.connectSigner, RpcEvent.keygen ("opkey")]⟩ ∧
    cli_register_public_key envKgFail cfg0 =
      ⟨Outcome.panicked (PanicReason.errorReport Error.Tofnd),
        some { pub_key := none },
        [RpcEvent.connectSigner, RpcEvent.keygen ("opkey")]⟩ :=
  c8_signer_failure_aborts envKgFail cfg0 ("registry1") ("svc")
    { amount := 100, denom := "uaxl" } [("chainA")] rfl rfl rfl

/-- With the submit oracle rejecting attempt 0 with a sequence mismatch
and confirming attempt 1, the broadcaster signs and submits with the
stale sequence, re-fetches the account, and signs and submits once more
with the fresh sequence. -/
theorem broadcaster_broadcast_recovers (env : Env) (key_uid addr : String)
    (acc1 acc2 : AccountInfo) (r : Nat)
    (hf1 : env.fetch_account addr 1 = Except.ok acc2)
    (h0 : env.submit 0 = SubmitResult.sequenceMismatch)
    (h1 : env.submit 1 = SubmitResult.confirmed) :
    broadcaster_broadcast env key_uid addr acc1 (r + 2) 0 1 =
      (Except.ok (),
        [RpcEvent.sign key_uid, RpcEvent.submit acc1.sequence,
         RpcEvent.queryAccount addr,
         RpcEvent.sign key_uid, RpcEvent.submit acc2.sequence]) := by
  unfold broadcaster_broadcast
  simp only [h0, hf1]
  unfold broadcaster_broadcast
  simp [h1]

/-- C4: sequence-mismatch recovery — when the immediate rejection of the
first submission carries the sequence-mismatch code, the broadcast
re-fetches the account info, rebuilds with the fresh sequence and
resubmits; with a chain double that rejects exactly once the operation
performs exactly two submits (stale then fresh sequence) and ends
confirmed. -/
theorem c4_sequence_mismatch_recovery (env : Env) (cfg : BroadcastConfig)
    (key_uid : String) (tx : MsgExecuteContract) (pk : PublicKey)
    (acc1 acc2 : AccountInfo)
    (hq : env.query_connect_ok = true)
    (hs : env.service_connect_ok = true)
    (hf0 : env.fetch_account (account_id pk PREFIX) 0 = Except.ok acc1)
    (hf1 : env.fetch_account (account_id pk PREFIX) 1 = Except.ok acc2)
    (h0 : env.submit 0 = SubmitResult.sequenceMismatch)
    (h1 : env.submit 1 = SubmitResult.confirmed)
    (hr : 1 ≤ cfg.retries) :
    (broadcast_execute_contract env cfg key_uid tx pk).1 = Except.ok () ∧
    ((broadcast_execute_contract env cfg key_uid tx pk).2).filter isSubmit =
      [RpcEvent.submit acc1.sequence, RpcEvent.submit acc2.sequence] := by
  obtain ⟨r, hrr⟩ := Nat.exists_eq_add_of_le hr
  have hfuel : cfg.retries + 1 = r + 2 := by omega
  unfold broadcast_execute_contract
  rw [hfuel]
  simp [hq, hs, hf0,
    broadcaster_broadcast_recovers env key_uid (account_id pk PREFIX)
      acc1 acc2 r hf1 h0 h1, isSubmit]

theorem c4_sequence_mismatch_recovery_witness :
    (broadcast_execute_contract envMismatch cfg0.broadcast ("opkey") tx0 pkK).1 =
      Except.ok () ∧
    ((broadcast_execute_contract envMismatch cfg0.broadcast ("opkey") tx0 pkK).2).filter
        isSubmit =
      [RpcEvent.submit accA.sequence, RpcEvent.submit accB.sequence] :=
  c4_sequence_mismatch_recovery envMismatch cfg0.broadcast ("opkey") tx0 pkK
    accA accB rfl rfl rfl rfl rfl rfl (by decide)

/-- C5 counterexample: with an account query that reports the address as
never funded (`NotFound`), the operation fails with the generic
`Error::Broadcaster` — the very same error value produced when the
account query fails on transport — so no distinct unfunded-address error
is raised. -/
theorem c5_counterexample :
    (broadcast_execute_contract envNotFound cfg0.broadcast ("opkey") tx0 pkK).1 =
      Except.error Error.Broadcaster ∧
    (broadcast_execute_contract envTransport cfg0.broadcast ("opkey") tx0 pkK).1 =
      Except.error Error.Broadcaster := by
  exact ⟨rfl, rfl⟩

/-- C5 as amended: a `NotFound` account-query failure makes the broadcast
operation fail with the generic `Error::Broadcaster` (the
`change_context(Error::Broadcaster).unwrap()` at cli.rs:292-295), the
same error as a transport failure of the same query — not with a
distinct user-actionable unfunded-address error. -/
theorem c5_notfound_generic_error (env env2 : Env) (cfg : BroadcastConfig)
    (key_uid : String) (tx : MsgExecuteContract) (pk : PublicKey)
    (hq : env.query_connect_ok = true)
    (hf : env.fetch_account (account_id pk PREFIX) 0 =
      Except.error QueryErr.notFound)
    (hq2 : env2.query_connect_ok = true)
    (hf2 : env2.fetch_account (account_id pk PREFIX) 0 =
      Except.error QueryErr.transport) :
    (broadcast_execute_contract env cfg key_uid tx pk).1 =
      Except.error Error.Broadcaster ∧
    (broadcast_execute_contract env2 cfg key_uid tx pk).1 =
      (broadcast_execute_contract env cfg key_uid tx pk).1 := by
  constructor <;> simp [broadcast_execute_contract, hq, hf, hq2, hf2]

theorem c5_notfound_generic_error_witness :
    (broadcast_execute_contract envNotFound cfg0.broadcast ("opkey") tx0 pkK).1 =
      Except.error Error.Broadcaster ∧
    (broadcast_execute_contract envTransport cfg0.broadcast ("opkey") tx0 pkK).1 =
      (broadcast_execute_contract envNotFound cfg0.broadcast ("opkey") tx0 pkK).1 :=
  c5_notfound_generic_error envNotFound envTransport cfg0.broadcast ("opkey")
    tx0 pkK rfl rfl rfl rfl

/-- C3 counterexample: a bond-worker invocation with an empty service
name and an otherwise valid address does not fail at all — it runs the
full pipeline to success, issuing RPCs along the way — refuting that such
input fails with `AssemblyError::InvalidInput` before any RPC (no such
error type exists in the code, and the service name is never
validated). -/
theorem c3_counterexample :
    (main_bond_worker envOk cfg0 ("registry1") ("") 100 ("uaxl")).outcome =
      Outcome.success ∧
    (main_bond_worker envOk cfg0 ("registry1") ("") 100 ("uaxl")).events ≠ [] := by
  exact ⟨rfl, by decide⟩

/-- C3 as amended: a malformed contract address makes bond-worker abort
with an argument-parse panic (`parse::<AccountId>().unwrap()` in
main.rs:99) before any RPC is issued — zero events — while an empty
service name is not validated and does not fail fast. -/
theorem c3_malformed_address_fail_fast (env : Env) (config : Config)
    (sr sn : String) (amount : Nat) (denom : String)
    (hparse : env.parse_account_id sr = none) :
    main_bond_worker env config sr sn amount denom =
      ⟨Outcome.panicked PanicReason.parseFailure, none, []⟩ := by
  unfold main_bond_worker
  by_cases hcoin : env.coin_ok denom <;> simp [hcoin, hparse]

theorem c3_malformed_address_fail_fast_witness :
    main_bond_worker envOk cfg0 ("") ("svc") 100 ("uaxl") =
      ⟨Outcome.panicked PanicReason.parseFailure, none, []⟩ :=
  c3_malformed_address_fail_fast envOk cfg0 ("") ("svc") 100 ("uaxl") rfl

/-- C6: deterministic assembly — the transaction assemblers read nothing
from the environment (no oracle, no clock, no randomness), so two runs
over identical logical inputs produce identical serialized payloads,
sender, contract and funds, whatever the two environments are. -/
theorem c6_deterministic_assembly (env1 env2 : Env) (pk : PublicKey)
    (sr sn : String) (coin : Coin) (chains : List String) :
    assemble_bond_worker_tx env1 pk sr sn coin =
      assemble_bond_worker_tx env2 pk sr sn coin ∧
    assemble_declare_chain_support_tx env1 pk sr sn chains =
      assemble_declare_chain_support_tx env2 pk sr sn chains :=
  ⟨rfl, rfl⟩

/-- Every broadcaster trace consists of sign/submit/query events only:
in particular it contains no keygen RPC. -/
theorem broadcaster_broadcast_no_keygen (env : Env) (key_uid addr : String)
    (acc : AccountInfo) (fuel attempt fetchIdx : Nat) :
    ((broadcaster_broadcast env key_uid addr acc fuel attempt fetchIdx).2).filter
      isKeygen = [] := by
  induction fuel generalizing acc attempt fetchIdx with
  | zero => rfl
  | succ f ih =>
    unfold broadcaster_broadcast
    cases env.submit attempt <;> dsimp only
    · simp [isKeygen]
    · cases env.fetch_account addr fetchIdx <;> dsimp only
      · simp [isKeygen]
      · simp [isKeygen, List.filter_append, ih]
    · simp [isKeygen]

theorem broadcast_execute_contract_no_keygen (env : Env)
    (cfg : BroadcastConfig) (key_uid : String) (tx : MsgExecuteContract)
    (pk : PublicKey) :
    ((broadcast_execute_contract env cfg key_uid tx pk).2).filter isKeygen = [] := by
  unfold broadcast_execute_contract
  by_cases hq : env.query_connect_ok
  · simp only [hq, if_true]
    cases env.fetch_account (account_id pk PREFIX) 0 <;> dsimp only
    · simp [isKeygen]
    · by_cases hs : env.service_connect_ok <;>
        simp [hs, isKeygen, List.filter_append, broadcaster_broadcast_no_keygen]
  · simp [hq, isKeygen]

/-- C9: `register_public_key` always issues exactly one keygen RPC keyed
by the multisig contract address, even when the persisted state already
holds a public key (so key resolution itself issues none): the keygen
events of its trace are exactly `[keygen multisig_address]`, whatever the
configured `key_uid` is and however that extra keygen turns out. -/
theorem c9_register_public_key_extra_keygen (env : Env) (config : Config)
    (k : PublicKey) (m : String)
    (hc : env.signer_connect_ok = true)
    (hload : env.load_state = Except.ok { pub_key := some k })
    (hm : first_multisig config.handlers = some m) :
    ((cli_register_public_key env config).events).filter isKeygen =
      [RpcEvent.keygen m] := by
  have hp := pub_key_populated env config.tofnd_config.key_uid k
    { pub_key := some k } hload rfl
  unfold cli_register_public_key
  simp only [hc, if_true, hp, hm]
  cases hkg : env.keygen m <;> dsimp only
  · simp [isKeygen]
  · cases hpa : env.parse_account_id m <;> dsimp only
    · simp [isKeygen]
    · simp [run_of_events, isKeygen, List.filter_append,
        broadcast_execute_contract_no_keygen]

theorem c9_register_public_key_extra_keygen_witness :
    ((cli_register_public_key envPop cfg0).events).filter isKeygen =
      [RpcEvent.keygen ("m1")] :=
  c9_register_public_key_extra_keygen envPop cfg0 pkK ("m1") rfl rfl rfl

/-- A broadcast that fetches the account successfully and is confirmed on
the first submission: one query, one broadcast call, one sign, one
submit. -/
theorem broadcast_execute_contract_success (env : Env) (cfg : BroadcastConfig)
    (key_uid : String) (tx : MsgExecuteContract) (pk : PublicKey)
    (acc : AccountInfo)
    (hq : env.query_connect_ok = true) (hs : env.service_connect_ok = true)
    (hf : env.fetch_account (account_id pk PREFIX) 0 = Except.ok acc)
    (hsub : env.submit 0 = SubmitResult.confirmed) :
    broadcast_execute_contract env cfg key_uid tx pk =
      (Except.ok (),
        [RpcEvent.connectQuery, RpcEvent.queryAccount (account_id pk PREFIX),
         RpcEvent.connectService, RpcEvent.broadcastCall,
         RpcEvent.sign key_uid, RpcEvent.submit acc.sequence]) := by
  unfold broadcast_execute_contract broadcaster_broadcast
  simp [hq, hs, hf, hsub]

/-- C7 counterexample: the worker-address command performs no Broadcaster
run at all — its trace contains zero broadcast calls, not the claimed
one — it only resolves the key and prints the derived address. -/
theorem c7_counterexample :
    ((cli_worker_address envPop cfg0).events).filter isBroadcastCall = [] ∧
    ¬ (((cli_worker_address envPop cfg0).events).filter isBroadcastCall).length = 1 := by
  exact ⟨rfl, by decide⟩

/-- C7 as amended: bond-worker, declare-chain-support and
register-public-key each translate into exactly one Broadcaster run per
execution, while worker-address performs none. -/
theorem c7_one_broadcast_per_command (env : Env) (config : Config)
    (sr sn : String) (coin : Coin) (chains : List String) (k : PublicKey)
    (acc : AccountInfo) (m : String) (mpk : PublicKey) (ma : String)
    (hc : env.signer_connect_ok = true)
    (hload : env.load_state = Except.ok { pub_key := some k })
    (hq : env.query_connect_ok = true) (hs : env.service_connect_ok = true)
    (hf : env.fetch_account (account_id k PREFIX) 0 = Except.ok acc)
    (hsub : env.submit 0 = SubmitResult.confirmed)
    (hm : first_multisig config.handlers = some m)
    (hkg : env.keygen m = Except.ok mpk)
    (hpa : env.parse_account_id m = some ma) :
    ((cli_bond_worker env config sr sn coin).events).filter isBroadcastCall =
      [RpcEvent.broadcastCall] ∧
    ((cli_declare_chain_support env config sr sn chains).events).filter
        isBroadcastCall = [RpcEvent.broadcastCall] ∧
    ((cli_register_public_key env config).events).filter isBroadcastCall =
      [RpcEvent.broadcastCall] ∧
    ((cli_worker_address env config).events).filter isBroadcastCall = [] := by
  have hp := pub_key_populated env config.tofnd_config.key_uid k
    { pub_key := some k } hload rfl
  have hbec : ∀ tx, broadcast_execute_contract env config.broadcast
      config.tofnd_config.key_uid tx k =
      (Except.ok (),
        [RpcEvent.connectQuery, RpcEvent.queryAccount (account_id k PREFIX),
         RpcEvent.connectService, RpcEvent.broadcastCall,
         RpcEvent.sign config.tofnd_config.key_uid,
         RpcEvent.submit acc.sequence]) :=
    fun tx => broadcast_execute_contract_success env config.broadcast
      config.tofnd_config.key_uid tx k acc hq hs hf hsub
  refine ⟨?_, ?_, ?_, ?_⟩
  · simp [cli_bond_worker, hc, hp, hbec, run_of_events, isBroadcastCall]
  · simp [cli_declare_chain_support, hc, hp, hbec, run_of_events,
      isBroadcastCall]
  · simp [cli_register_public_key, hc, hp, hm, hkg, hpa, hbec, run_of_events,
      isBroadcastCall]
  · simp [cli_worker_address, hc, hp, isBroadcastCall]

theorem c7_one_broadcast_per_command_witness :
    ((cli_bond_worker envPop cfg0 ("registry1") ("svc")
        { amount := 100, denom := "uaxl" }).events).filter isBroadcastCall =
      [RpcEvent.broadcastCall] ∧
    ((cli_declare_chain_support envPop cfg0 ("registry1") ("svc")
        [("chainA")]).events).filter isBroadcastCall = [RpcEvent.broadcastCall] ∧
    ((cli_register_public_key envPop cfg0).events).filter isBroadcastCall =
      [RpcEvent.broadcastCall] ∧
    ((cli_worker_address envPop cfg0).events).filter isBroadcastCall = [] :=
  c7_one_broadcast_per_command envPop cfg0 ("registry1") ("svc")
    { amount := 100, denom := "uaxl" } [("chainA")] pkK accA ("m1") pkK ("m1")
    rfl rfl rfl rfl rfl rfl rfl rfl (by decide)

/-- C10: home-directory expansion of the state path happens only for the
daemon subcommand; every other subcommand passes the path through
unexpanded, so the same `~`-prefixed argument names different files
depending on the subcommand. -/
theorem c10_home_expansion_daemon_only (home : Option (List String))
    (p : List String) :
    state_path_used home SubCommand.daemon p = expand_home_dir home p ∧
    (∀ cmd, cmd ≠ SubCommand.daemon → state_path_used home cmd p = p) ∧
    state_path_used (some [("home"), ("user")]) SubCommand.daemon
        [("~"), ("state.json")] ≠
      state_path_used (some [("home"), ("user")]) SubCommand.bondWorker
        [("~"), ("state.json")] := by
  refine ⟨rfl, ?_, by decide⟩
  intro cmd h
  cases cmd
  · exact absurd rfl h
  · rfl
  · rfl
  · rfl
  · rfl

theorem c10_home_expansion_daemon_only_witness :
    state_path_used (some [("home"), ("user")]) SubCommand.bondWorker
        [("~"), ("state.json")] = [("~"), ("state.json")] :=
  (c10_home_expansion_daemon_only (some [("home"), ("user")])
    [("~"), ("state.json")]).2.1 SubCommand.bondWorker (by decide)

end Ampd
